import Mathlib

/-!
Shallow embedding of `src/av1an-core/src/ffmpeg.rs` (superyu1337/Av1an):
the audio probe / channel-layout bitrate classification / per-stream audio
encode / remux pipeline, together with the keyframe prober.

External processes are modelled by an explicit outcome environment: for each
process the environment says whether `spawn()` / `output()` returned `Ok`,
whether `wait()` returned `Ok` at the OS level, and what
`ExitStatus::success()` would report.  Rust panics (`unwrap` / `expect`) are
modelled as `Except.error (RunFailure.panicked msg)`; values returned
normally are `Except.ok`.  The `f32` literals `2.1`, `2.2`, ... of the
channel classifier are represented as exact rationals: the classifier only
selects among these constant labels, it performs no float arithmetic.
The one genuinely floating-point computation of the file,
`(128.0 * (layout / 2.0).powf(0.75)).round() as usize`, is isolated as an
abstract parameter `floatBitrate : ℚ → Nat` of the pipeline model.
-/

namespace Av1an

/-- `ffmpeg::media::Type` (the media kinds used by the file). -/
inductive MediaType where
  | Video
  | Audio
  | Subtitle
  | Data
deriving DecidableEq, BEq

/-- One demuxed packet, as seen by `get_keyframes`: the index of the stream it
belongs to and its key-frame flag (`packet.is_key()`). -/
structure Packet where
  streamIndex : Nat
  isKey : Bool
deriving DecidableEq

/-- One stream descriptor: absolute index, medium, the raw
`ch_layout.u.mask` bits and `ch_layout.nb_channels` read by
`get_channel_layout_float`. -/
structure Stream where
  index : Nat
  medium : MediaType
  chLayoutMask : Nat
  nbChannels : Int
deriving DecidableEq

/-- An opened input context (`ffmpeg::format::input`): its streams, its
packets in file order, and the library's `streams().best(medium)` heuristic,
treated as a black box returning the index of the best-ranked stream of a
medium (or none). -/
structure InputContext where
  streams : List Stream
  packets : List Packet
  bestIndex : MediaType → Option Nat

/-- Errors of the ffmpeg wrapper library (`ffmpeg::Error`); only the
constructors the embedded code distinguishes. -/
inductive FfmpegError where
  | StreamNotFound
  | OpenFailed
deriving DecidableEq

/-- How a modelled run can fail: a Rust panic (from `unwrap` / `expect`),
or a typed error value returned to the caller. -/
inductive RunFailure where
  | panicked (msg : String)
  | typedFailure (e : FfmpegError)
deriving DecidableEq

/-- An external command: program name plus argument list, exactly as built
by `std::process::Command` (each `.arg`/`.args` element is one list entry). -/
structure Cmd where
  program : String
  args : List String
deriving DecidableEq

/-- The captured result of a completed process (`std::process::Output`),
reduced to the one field the code inspects: `status.success()`. -/
structure ProcOutput where
  statusSuccess : Bool
deriving DecidableEq

/-- One `warn!` diagnostic emitted by `encode_audio` on a failed top-level
process: it prints the captured output and the failed invocation. -/
structure AudioWarning where
  failedCmd : Cmd
  captured : ProcOutput
deriving DecidableEq

/-- Observable outcome of `encode_audio`: the returned `Option<PathBuf>`,
the external processes spawned (in order), and the diagnostics emitted. -/
structure RunOutcome where
  result : Option String
  spawnedCmds : List Cmd
  warnings : List AudioWarning
deriving DecidableEq

/-- The panic message of `Result::unwrap` on an `Err` value. -/
def unwrapErrMsg (e : FfmpegError) : String :=
  match e with
  | FfmpegError.StreamNotFound => "called Result::unwrap on an Err value: StreamNotFound"
  | FfmpegError.OpenFailed => "called Result::unwrap on an Err value: OpenFailed"

namespace ChannelLayout

/-! `ffmpeg::ChannelLayout` is a `bitflags` struct over the FFmpeg
`AV_CH_*` channel bits.  The constants below are the FFmpeg channel bits and
named layout masks (from `libavutil/channel_layout.h`, as re-exported by the
`ffmpeg-next` crate). -/

def FRONT_LEFT : Nat := 0x1
def FRONT_RIGHT : Nat := 0x2
def FRONT_CENTER : Nat := 0x4
def LOW_FREQUENCY : Nat := 0x8
def BACK_LEFT : Nat := 0x10
def BACK_RIGHT : Nat := 0x20
def FRONT_LEFT_OF_CENTER : Nat := 0x40
def FRONT_RIGHT_OF_CENTER : Nat := 0x80
def BACK_CENTER : Nat := 0x100
def SIDE_LEFT : Nat := 0x200
def SIDE_RIGHT : Nat := 0x400
def TOP_CENTER : Nat := 0x800
def TOP_FRONT_LEFT : Nat := 0x1000
def TOP_FRONT_CENTER : Nat := 0x2000
def TOP_FRONT_RIGHT : Nat := 0x4000
def TOP_BACK_LEFT : Nat := 0x8000
def TOP_BACK_CENTER : Nat := 0x10000
def TOP_BACK_RIGHT : Nat := 0x20000
def STEREO_LEFT : Nat := 0x20000000
def STEREO_RIGHT : Nat := 0x40000000
def WIDE_LEFT : Nat := 0x80000000
def WIDE_RIGHT : Nat := 0x100000000
def SURROUND_DIRECT_LEFT : Nat := 0x200000000
def SURROUND_DIRECT_RIGHT : Nat := 0x400000000
def LOW_FREQUENCY_2 : Nat := 0x800000000
def NATIVE : Nat := 0x8000000000000000

/-! The named layout masks, each the union of its member channel bits (the
members are pairwise disjoint, so each union is written as its literal
value): MONO = FC; STEREO = FL|FR; _2POINT1 = STEREO|LFE;
_2_1 = STEREO|BC; SURROUND = STEREO|FC; _3POINT1 = SURROUND|LFE;
_4POINT0 = SURROUND|BC; _4POINT1 = _4POINT0|LFE;
_2_2 = STEREO|SL|SR; QUAD = STEREO|BL|BR; _5POINT0 = SURROUND|SL|SR;
_5POINT1 = _5POINT0|LFE; _5POINT0_BACK = SURROUND|BL|BR;
_5POINT1_BACK = _5POINT0_BACK|LFE; _6POINT0 = _5POINT0|BC;
_6POINT0_FRONT = _2_2|FLC|FRC; HEXAGONAL = _5POINT0_BACK|BC;
_6POINT1 = _5POINT1|BC; _6POINT1_BACK = _5POINT1_BACK|BC;
_6POINT1_FRONT = _6POINT0_FRONT|LFE; _7POINT0 = _5POINT0|BL|BR;
_7POINT0_FRONT = _5POINT0|FLC|FRC; _7POINT1 = _5POINT1|BL|BR;
_7POINT1_WIDE = _5POINT1|FLC|FRC;
_7POINT1_WIDE_BACK = _5POINT1_BACK|FLC|FRC;
OCTAGONAL = _5POINT0|BC|BL|BR;
HEXADECAGONAL = OCTAGONAL|WL|WR|TBL|TBR|TBC|TFC|TFL|TFR;
STEREO_DOWNMIX = STEREO_LEFT|STEREO_RIGHT. -/

def MONO : Nat := 0x4
def STEREO : Nat := 0x3
def _2POINT1 : Nat := 0xB
def _2_1 : Nat := 0x103
def SURROUND : Nat := 0x7
def _3POINT1 : Nat := 0xF
def _4POINT0 : Nat := 0x107
def _4POINT1 : Nat := 0x10F
def _2_2 : Nat := 0x603
def QUAD : Nat := 0x33
def _5POINT0 : Nat := 0x607
def _5POINT1 : Nat := 0x60F
def _5POINT0_BACK : Nat := 0x37
def _5POINT1_BACK : Nat := 0x3F
def _6POINT0 : Nat := 0x707
def _6POINT0_FRONT : Nat := 0x6C3
def HEXAGONAL : Nat := 0x137
def _6POINT1 : Nat := 0x70F
def _6POINT1_BACK : Nat := 0x13F
def _6POINT1_FRONT : Nat := 0x6CB
def _7POINT0 : Nat := 0x637
def _7POINT0_FRONT : Nat := 0x6C7
def _7POINT1 : Nat := 0x63F
def _7POINT1_WIDE : Nat := 0x6CF
def _7POINT1_WIDE_BACK : Nat := 0xFF
def OCTAGONAL : Nat := 0x737
def HEXADECAGONAL : Nat := 0x18003F737
def STEREO_DOWNMIX : Nat := 0x60000000

/-- Union of every defined flag bit (`bitflags` `all()`). -/
def ALL : Nat :=
  FRONT_LEFT ||| FRONT_RIGHT ||| FRONT_CENTER ||| LOW_FREQUENCY ||| BACK_LEFT |||
  BACK_RIGHT ||| FRONT_LEFT_OF_CENTER ||| FRONT_RIGHT_OF_CENTER ||| BACK_CENTER |||
  SIDE_LEFT ||| SIDE_RIGHT ||| TOP_CENTER ||| TOP_FRONT_LEFT ||| TOP_FRONT_CENTER |||
  TOP_FRONT_RIGHT ||| TOP_BACK_LEFT ||| TOP_BACK_CENTER ||| TOP_BACK_RIGHT |||
  STEREO_LEFT ||| STEREO_RIGHT ||| WIDE_LEFT ||| WIDE_RIGHT |||
  SURROUND_DIRECT_LEFT ||| SURROUND_DIRECT_RIGHT ||| LOW_FREQUENCY_2 ||| NATIVE

/-- `bitflags` `from_bits`: `Some` of the value when every set bit is a
defined flag, `None` otherwise. -/
def from_bits (bits : Nat) : Option Nat :=
  if bits &&& ALL = bits then some bits else none

end ChannelLayout

/-- The `Some(layout)` match arms of `get_channel_layout_float` (ffmpeg.rs
lines 151-161): a `bitflags` struct pattern match is an equality test
against the named constants, an or-pattern a disjunction of them, and the
wildcard arm returns the raw channel count.  The Rust `f32` results are
represented as exact rationals. -/
def layoutTable (layout : Nat) (channels : Int) : ℚ :=
  if layout = ChannelLayout._2POINT1 ∨ layout = ChannelLayout._2_1 then 2.1
  else if layout = ChannelLayout._2_2 then 2.2
  else if layout = ChannelLayout._3POINT1 then 3.1
  else if layout = ChannelLayout._4POINT1 then 4.1
  else if layout = ChannelLayout._5POINT1 ∨ layout = ChannelLayout._5POINT1_BACK then 5.1
  else if layout = ChannelLayout._6POINT1 ∨ layout = ChannelLayout._6POINT1_FRONT ∨
          layout = ChannelLayout._6POINT1_BACK then 6.1
  else if layout = ChannelLayout._7POINT1 ∨ layout = ChannelLayout._7POINT1_WIDE ∨
          layout = ChannelLayout._7POINT1_WIDE_BACK then 7.1
  else (channels : ℚ)

/-- `get_channel_layout_float` (ffmpeg.rs lines 146-172): decode the raw
channel-layout mask; on success classify through the named-layout table,
otherwise fall back to the raw channel count. -/
def get_channel_layout_float (stream : Stream) : ℚ :=
  match ChannelLayout.from_bits stream.chLayoutMask with
  | some layout => layoutTable layout stream.nbChannels
  | none =>
    if stream.nbChannels = 3 then 2.1
    else if stream.nbChannels = 6 then 5.1
    else if stream.nbChannels = 8 then 7.1
    else (stream.nbChannels : ℚ)

/-- `get_keyframes` (ffmpeg.rs lines 116-138).  The opened context is passed
as an `Except` (opening may fail with a decode-layer error, propagated by
`?`).  Packets of the best video stream are numbered from 0 in file order;
positions whose packet has the key flag are collected; an empty collection
becomes `[0]`. -/
def get_keyframes (openResult : Except FfmpegError InputContext) :
    Except FfmpegError (List Nat) :=
  match openResult with
  | Except.error e => Except.error e
  | Except.ok ictx =>
    match ictx.bestIndex MediaType.Video with
    | none => Except.error FfmpegError.StreamNotFound
    | some video_stream_index =>
      let kfs :=
        (((ictx.packets.filter fun p => p.streamIndex == video_stream_index).enum.filter
            fun ip => ip.2.isKey).map fun ip => ip.1)
      if kfs.isEmpty then Except.ok [0] else Except.ok kfs

/-- Reference formulation for the keyframe list: the positions, counted from
`n`, of the key-flagged packets of a packet list. -/
def keyPositionsFrom (n : Nat) : List Packet → List Nat
  | [] => []
  | p :: ps =>
    if p.isKey then n :: keyPositionsFrom (n + 1) ps else keyPositionsFrom (n + 1) ps

/-- `has_audio` (ffmpeg.rs lines 141-144): `input(&file).unwrap()` panics on
an open failure; otherwise report whether a best-ranked audio stream
exists. -/
def has_audioRun (openResult : Except FfmpegError InputContext) :
    Except RunFailure Bool :=
  match openResult with
  | Except.error e => Except.error (RunFailure.panicked (unwrapErrMsg e))
  | Except.ok ictx => Except.ok (ictx.bestIndex MediaType.Audio).isSome

/-- Stage-1 extraction command of `handle_opus` (ffmpeg.rs lines 188-197):
demux exactly one audio stream (by absolute index) of the source to flac on
stdout, excluding video/subtitle/data streams. -/
def ffmpegExtractCmd (inp : String) (streamIndex : Nat) : Cmd :=
  { program := "ffmpeg",
    args := ["-hide_banner", "-v", "quiet", "-i", inp, "-vn", "-sn", "-dn", "-map",
             "0:" ++ toString streamIndex,
             "-map_metadata", "0:s:" ++ toString streamIndex,
             "-f", "flac", "-"] }

/-- Stage-2 lossy encoder command of `handle_opus` (ffmpeg.rs lines
199-206): opusenc reading stdin, variable bitrate, writing
`<temp>/audio/<index>.opus`. -/
def opusencCmd (temp : String) (bitrate : Nat) (streamIndex : Nat) : Cmd :=
  { program := "opusenc",
    args := ["--quiet", "--vbr", "--bitrate", toString bitrate ++ "K", "-",
             temp ++ "/audio/" ++ toString streamIndex ++ ".opus"] }

/-- The fold of ffmpeg.rs lines 217-226: from the collected audio stream
indices, accumulate the `-i` input arguments, the `-map` arguments (one per
input, counting from 0) and the final counter value. -/
def mergeFold (temp : String) (audio_data : List Nat) :
    List String × List String × Nat :=
  audio_data.foldl
    (fun acc a =>
      (acc.1 ++ ["-i", temp ++ "/audio/" ++ toString a ++ ".opus"],
       acc.2.1 ++ ["-map", toString acc.2.2],
       acc.2.2 + 1))
    ([], [], 0)

/-- The merge invocation of `handle_opus` (ffmpeg.rs lines 228-237).  Note
that `.args(["-map 0:s"])` in the source passes the single fused argument
string "-map 0:s", which is reproduced here verbatim as one list element. -/
def mergeCmd (temp : String) (audio_data : List Nat) (merge_with output : String) : Cmd :=
  let folded := mergeFold temp audio_data
  { program := "ffmpeg",
    args := ["-y", "-hide_banner", "-v", "quiet"] ++ folded.1 ++
            ["-i", merge_with] ++
            ["-map 0:s"] ++ folded.2.1 ++
            ["-map", toString folded.2.2] ++
            ["-c", "copy"] ++ [output] }

/-- Environment of process outcomes for one `handle_opus` run: filesystem
results for the `audio/` directory, per-stream results for the stage-1 and
stage-2 processes (keyed by stream index), and results for the merge
process.  `WaitOk` is the OS-level success of `wait()`; `StatusSuccess` is
what `ExitStatus::success()` would report for the exited process. -/
structure HandleOpusEnv where
  audioDirExists : Bool
  mkdirOk : Bool
  ffmpegSpawnOk : Nat → Bool
  opusencSpawnOk : Nat → Bool
  opusencWaitOk : Nat → Bool
  opusencStatusSuccess : Nat → Bool
  mergeSpawnOk : Bool
  mergeWaitOk : Bool
  mergeStatusSuccess : Bool

/-- `handle_opus` (ffmpeg.rs lines 174-242).  Returns the list of commands
spawned, in order, or the panic that aborted the run.  Faithful points:
`ffmpeg::format::input(&input).unwrap()` panics on an open failure; a spawn
failure panics via `expect`; `opusenc.wait().expect("Opusenc crashed")`
panics only when `wait()` itself fails at the OS level — the returned
`ExitStatus` is dropped by the source, so it is bound and discarded here;
likewise for the merge process.  The bitrate
`(128.0 * (layout / 2.0).powf(0.75)).round() as usize` is computed by the
abstract `floatBitrate` applied to the classifier's result. -/
def handle_opusRun (openResult : Except FfmpegError InputContext)
    (inp merge_with output temp : String)
    (floatBitrate : ℚ → Nat) (env : HandleOpusEnv) :
    Except RunFailure (List Cmd) := do
  let ictx ← match openResult with
    | Except.error e => throw (RunFailure.panicked (unwrapErrMsg e))
    | Except.ok ictx => pure ictx
  if !env.audioDirExists then
    if !env.mkdirOk then
      throw (RunFailure.panicked "Failed to create audio folder")
  let audioStreams := ictx.streams.filter fun f => f.medium == MediaType.Audio
  let folded ← audioStreams.foldlM
    (fun (acc : List Nat × List Cmd) stream => do
      let layout := get_channel_layout_float stream
      let bitrate := floatBitrate layout
      let fc := ffmpegExtractCmd inp stream.index
      if !(env.ffmpegSpawnOk stream.index) then
        throw (RunFailure.panicked "ffmpeg failed to start")
      let oc := opusencCmd temp bitrate stream.index
      if !(env.opusencSpawnOk stream.index) then
        throw (RunFailure.panicked "opusenc failed to start")
      let _exitStatus ←
        if env.opusencWaitOk stream.index then
          pure (env.opusencStatusSuccess stream.index)
        else
          throw (RunFailure.panicked "Opusenc crashed")
      pure (acc.1 ++ [stream.index], acc.2 ++ [fc, oc]))
    (([], []) : List Nat × List Cmd)
  let audio_data := folded.1
  let mc := mergeCmd temp audio_data merge_with output
  if !env.mergeSpawnOk then
    throw (RunFailure.panicked "ffmpeg failed to start")
  let _mergeStatus ←
    if env.mergeWaitOk then
      pure env.mergeStatusSuccess
    else
      throw (RunFailure.panicked "ffmpeg crashed while merging")
  pure (folded.2 ++ [mc])

/-- Argument list of the top-level `encode_audio` process (ffmpeg.rs lines
263-287), in the exact order the source adds them. -/
def encodeAudioCmdArgs (inp : String) (opus_mode : Bool)
    (audio_params : List String) (audio_file : String) : List String :=
  ["-y", "-hide_banner", "-loglevel", "error", "-i", inp] ++
  ["-map_metadata", "0", "-vn", "-dn", "-map", "0", "-c", "copy"] ++
  (if opus_mode then ["-map", "0:a:0"] else audio_params) ++
  [audio_file]

/-- The top-level `encode_audio` invocation as a command value. -/
def encode_audioCmd (inp : String) (opus_mode : Bool)
    (audio_params : List String) (audio_file : String) : Cmd :=
  { program := "ffmpeg", args := encodeAudioCmdArgs inp opus_mode audio_params audio_file }

/-- Environment of process outcomes for one `encode_audio` run: the OS-level
result of `.output()` for the top-level process, its exit status, and the
environment for the nested `handle_opus` call. -/
structure EncodeAudioEnv where
  outputRan : Bool
  outputStatusSuccess : Bool
  opusEnv : HandleOpusEnv

/-- `encode_audio` (ffmpeg.rs lines 249-312).  `openResult` is the result of
opening the source (used by the `has_audio` probe and again by
`handle_opus`; the source path is the same for both opens).  If the probe
finds no audio the function returns `None` having spawned nothing.
Otherwise the top-level copy/transcode process runs via
`.output().unwrap()` (panic on an OS-level failure); a non-success exit
status emits a `warn!` diagnostic carrying the captured output and the
invocation and returns `None`; on success, opus mode hands off to
`handle_opus` and returns `<temp>/audio.mkv`, standard mode returns the
copied file directly. -/
def encode_audioRun (inp temp : String) (opus_mode : Bool)
    (audio_params : List String) (floatBitrate : ℚ → Nat)
    (openResult : Except FfmpegError InputContext)
    (env : EncodeAudioEnv) : Except RunFailure RunOutcome := do
  let hasAudio ← has_audioRun openResult
  if hasAudio then
    let audio_file := if opus_mode then temp ++ "/misc.mkv" else temp ++ "/audio.mkv"
    let cmd := encode_audioCmd inp opus_mode audio_params audio_file
    if !env.outputRan then
      throw (RunFailure.panicked "called Result::unwrap on an Err value: output failed")
    if !env.outputStatusSuccess then
      pure { result := none,
             spawnedCmds := [cmd],
             warnings := [{ failedCmd := cmd, captured := { statusSuccess := false } }] }
    else if opus_mode then do
      let trace ← handle_opusRun openResult inp audio_file (temp ++ "/audio.mkv") temp
        floatBitrate env.opusEnv
      pure { result := some (temp ++ "/audio.mkv"),
             spawnedCmds := cmd :: trace,
             warnings := [] }
    else
      pure { result := some audio_file, spawnedCmds := [cmd], warnings := [] }
  else
    pure { result := none, spawnedCmds := [], warnings := [] }

/-! Concrete inputs used by the claim evaluations below. -/

/-- A source with one video stream (index 0) and one audio stream (index 1,
5.1(back) layout, 6 channels); no packets. -/
def sampleCtx : InputContext :=
  { streams := [⟨0, MediaType.Video, 0, 0⟩,
                ⟨1, MediaType.Audio, ChannelLayout._5POINT1_BACK, 6⟩],
    packets := [],
    bestIndex := fun m =>
      match m with
      | MediaType.Video => some 0
      | MediaType.Audio => some 1
      | _ => none }

/-- A source containing only a video stream. -/
def noAudioCtx : InputContext :=
  { streams := [⟨0, MediaType.Video, 0, 0⟩],
    packets := [],
    bestIndex := fun m =>
      match m with
      | MediaType.Video => some 0
      | _ => none }

/-- A source whose best video stream (index 0) has key-flagged packets at
positions 0 and 2 among its own packets (an unrelated stream-1 packet sits
in between). -/
def kfCtx : InputContext :=
  { streams := [⟨0, MediaType.Video, 0, 0⟩],
    packets := [⟨0, true⟩, ⟨1, false⟩, ⟨0, false⟩, ⟨0, true⟩],
    bestIndex := fun m =>
      match m with
      | MediaType.Video => some 0
      | _ => none }

/-- A source whose best video stream has packets but no key-flagged one. -/
def kfNoKeyCtx : InputContext :=
  { streams := [⟨0, MediaType.Video, 0, 0⟩],
    packets := [⟨0, false⟩, ⟨0, false⟩],
    bestIndex := fun m =>
      match m with
      | MediaType.Video => some 0
      | _ => none }

/-- An audio stream whose layout mask has an undefined bit (bit 18), so
`from_bits` cannot decode it, with 6 channels. -/
def badMaskStream : Stream := ⟨0, MediaType.Audio, 0x40000, 6⟩

/-- Process environment where every process spawns, is waited on and exits
successfully. -/
def allOkOpusEnv : HandleOpusEnv :=
  { audioDirExists := true, mkdirOk := true,
    ffmpegSpawnOk := fun _ => true, opusencSpawnOk := fun _ => true,
    opusencWaitOk := fun _ => true, opusencStatusSuccess := fun _ => true,
    mergeSpawnOk := true, mergeWaitOk := true, mergeStatusSuccess := true }

/-- Process environment where every process spawns and is waited on without
an OS error, but every process exits with a non-zero status. -/
def nonzeroExitEnv : HandleOpusEnv :=
  { audioDirExists := true, mkdirOk := true,
    ffmpegSpawnOk := fun _ => true, opusencSpawnOk := fun _ => true,
    opusencWaitOk := fun _ => true, opusencStatusSuccess := fun _ => false,
    mergeSpawnOk := true, mergeWaitOk := true, mergeStatusSuccess := false }

/-- Environment for `encode_audio` where everything succeeds. -/
def allOkEncodeEnv : EncodeAudioEnv :=
  { outputRan := true, outputStatusSuccess := true, opusEnv := allOkOpusEnv }

/-- Environment for `encode_audio` where the top-level process runs but
exits with a non-zero status. -/
def softFailEncodeEnv : EncodeAudioEnv :=
  { outputRan := true, outputStatusSuccess := false, opusEnv := allOkOpusEnv }

/-! Helper lemmas about the keyframe computation. -/

theorem enumFrom_filter_key_map (n : Nat) (l : List Packet) :
    (((List.enumFrom n l).filter fun ip => ip.2.isKey).map fun ip => ip.1) =
      keyPositionsFrom n l := by
  induction l generalizing n with
  | nil => rfl
  | cons p ps ih =>
    cases hp : p.isKey with
    | true => simp [List.enumFrom, List.filter_cons, hp, keyPositionsFrom, ih]
    | false => simp [List.enumFrom, List.filter_cons, hp, keyPositionsFrom, ih]

theorem mem_keyPositionsFrom (n i : Nat) (l : List Packet) :
    i ∈ keyPositionsFrom n l ↔
      ∃ j, (∃ p, l.get? j = some p ∧ p.isKey = true) ∧ i = n + j := by
  induction l generalizing n with
  | nil => simp [keyPositionsFrom]
  | cons p ps ih =>
    cases hp : p.isKey with
    | true =>
      simp only [keyPositionsFrom, hp, if_true, List.mem_cons, ih]
      constructor
      · rintro (rfl | ⟨j, ⟨q, hq, hk⟩, rfl⟩)
        · exact ⟨0, ⟨p, rfl, hp⟩, by omega⟩
        · refine ⟨j + 1, ⟨q, ?_, hk⟩, by omega⟩
          simpa using hq
      · rintro ⟨j, ⟨q, hq, hk⟩, rfl⟩
        cases j with
        | zero => left; omega
        | succ j' =>
          right
          refine ⟨j', ⟨q, ?_, hk⟩, by omega⟩
          simpa using hq
    | false =>
      simp only [keyPositionsFrom, hp, Bool.false_eq_true, if_false, ih]
      constructor
      · rintro ⟨j, ⟨q, hq, hk⟩, rfl⟩
        refine ⟨j + 1, ⟨q, ?_, hk⟩, by omega⟩
        simpa using hq
      · rintro ⟨j, ⟨q, hq, hk⟩, rfl⟩
        cases j with
        | zero =>
          exfalso
          simp only [List.get?_cons_zero, Option.some.injEq] at hq
          subst hq
          rw [hp] at hk
          exact Bool.false_ne_true hk
        | succ j' =>
          refine ⟨j', ⟨q, ?_, hk⟩, by omega⟩
          simpa using hq

/-- Claim C1, evaluated at a failing input: the merge invocation built by
`handle_opus` for a source with one audio stream (index 1).  The subtitle
selection is the single fused argument string "-map 0:s", which names input
0 — the first per-stream opus file, which carries no subtitles — rather
than explicit maps selecting all subtitle streams from the last input; and
the final map "-map","1" selects every stream of the last input (the
single-track intermediate), not only its subtitles. -/
theorem handle_opus_merge_cmd_eval :
    mergeCmd "t" [1] "t/misc.mkv" "t/audio.mkv" =
      { program := "ffmpeg",
        args := ["-y", "-hide_banner", "-v", "quiet",
                 "-i", "t/audio/1.opus",
                 "-i", "t/misc.mkv",
                 "-map 0:s",
                 "-map", "0",
                 "-map", "1",
                 "-c", "copy",
                 "t/audio.mkv"] } := by
  rfl

/-- Claim C2, evaluated at a failing input: the single-track-mode argument
list of `encode_audio` contains both the map "0" (every stream of the
source, hence every audio stream) and the map "0:a:0" (the first audio
stream, mapped a second time), so the intermediate extraction does not keep
exactly one audio stream when the source has more than one. -/
theorem encode_audio_opus_args_eval :
    encodeAudioCmdArgs "in.mkv" true [] "t/misc.mkv" =
      ["-y", "-hide_banner", "-loglevel", "error", "-i", "in.mkv",
       "-map_metadata", "0", "-vn", "-dn", "-map", "0", "-c", "copy",
       "-map", "0:a:0", "t/misc.mkv"] := by
  rfl

/-- Claim C3, evaluated at a failing input: with every process of
`handle_opus` spawning and being waited on without an OS error but exiting
with a non-zero status, the run completes normally and returns the full
spawn trace — the non-zero exit statuses are never inspected, so the
failures are swallowed instead of being fatal. -/
theorem handle_opus_nonzero_exit_not_fatal :
    handle_opusRun (Except.ok sampleCtx) "in.mkv" "t/misc.mkv" "t/audio.mkv" "t"
      (fun _ => 128) nonzeroExitEnv =
      Except.ok [ffmpegExtractCmd "in.mkv" 1, opusencCmd "t" 128 1,
                 mergeCmd "t" [1] "t/misc.mkv" "t/audio.mkv"] := by
  rfl

/-- Claim C5: for every stream whose channel-layout bitmask cannot be
decoded (`from_bits` returns `none`), `get_channel_layout_float` classifies
purely from the raw channel count: count 3 yields 2.1, count 6 yields 5.1,
count 8 yields 7.1, and any other count yields the count itself. -/
theorem get_channel_layout_float_fallback (s : Stream)
    (h : ChannelLayout.from_bits s.chLayoutMask = none) :
    get_channel_layout_float s =
      if s.nbChannels = 3 then (2.1 : ℚ)
      else if s.nbChannels = 6 then 5.1
      else if s.nbChannels = 8 then 7.1
      else (s.nbChannels : ℚ) := by
  unfold get_channel_layout_float
  rw [h]

/-- Witness for C5: a 6-channel stream with an undecodable mask is
classified 5.1 by the count fallback. -/
theorem get_channel_layout_float_fallback_witness :
    ChannelLayout.from_bits badMaskStream.chLayoutMask = none ∧
    get_channel_layout_float badMaskStream = 5.1 := by
  refine ⟨by decide, ?_⟩
  rw [get_channel_layout_float_fallback badMaskStream (by decide)]
  norm_num [badMaskStream]

/-- When the bitmask decodes, `get_channel_layout_float` is the named-layout
table applied to the mask and the channel count. -/
theorem get_channel_layout_float_decoded (idx : Nat) (m : MediaType) (M : Nat)
    (ch : Int) (h : ChannelLayout.from_bits M = some M) :
    get_channel_layout_float ⟨idx, m, M, ch⟩ = layoutTable M ch := by
  unfold get_channel_layout_float
  rw [show (Stream.mk idx m M ch).chLayoutMask = M from rfl, h]

/-- Claim C6: for every source whose best video stream exists,
`get_keyframes` returns exactly the 0-based positions, among that stream's
packets in file order, of the packets carrying the key-frame marker
(`keyPositionsFrom 0`, whose membership is characterized below), and the
one-element list `[0]` when no packet carries the marker. -/
theorem get_keyframes_spec (ictx : InputContext) (idx : Nat)
    (h : ictx.bestIndex MediaType.Video = some idx) :
    get_keyframes (Except.ok ictx) =
      Except.ok
        (if keyPositionsFrom 0 (ictx.packets.filter fun p => p.streamIndex == idx) = []
         then [0]
         else keyPositionsFrom 0 (ictx.packets.filter fun p => p.streamIndex == idx)) ∧
    ∀ i, i ∈ keyPositionsFrom 0 (ictx.packets.filter fun p => p.streamIndex == idx) ↔
      ∃ j, (∃ p, (ictx.packets.filter fun p => p.streamIndex == idx).get? j = some p ∧
              p.isKey = true) ∧ i = j := by
  constructor
  · simp only [get_keyframes, h]
    rw [show (ictx.packets.filter fun p => p.streamIndex == idx).enum
          = List.enumFrom 0 (ictx.packets.filter fun p => p.streamIndex == idx) from rfl]
    rw [enumFrom_filter_key_map]
    cases e : keyPositionsFrom 0 (ictx.packets.filter fun p => p.streamIndex == idx) with
    | nil => simp [e]
    | cons a l => simp [e]
  · intro i
    rw [mem_keyPositionsFrom]
    simp [Nat.zero_add]

/-- Witness for C6: on a stream with key markers at positions 0 and 2 the
result is exactly [0, 2]; on a stream with no key marker it is exactly
[0]. -/
theorem get_keyframes_spec_witness :
    kfCtx.bestIndex MediaType.Video = some 0 ∧
    get_keyframes (Except.ok kfCtx) = Except.ok [0, 2] ∧
    get_keyframes (Except.ok kfNoKeyCtx) = Except.ok [0] := by
  refine ⟨rfl, ?_, ?_⟩
  · rw [(get_keyframes_spec kfCtx 0 rfl).1]
    rfl
  · rw [(get_keyframes_spec kfNoKeyCtx 0 rfl).1]
    rfl

/-- Claim C7: when the prober finds no audio stream, `encode_audio` returns
"no audio produced" (`none`) — not an error — and spawns no external
process beyond the initial probe, in both single-track and standard
mode. -/
theorem encode_audio_no_audio (inp temp : String) (opus_mode : Bool)
    (params : List String) (floatBitrate : ℚ → Nat) (ictx : InputContext)
    (env : EncodeAudioEnv)
    (h : ictx.bestIndex MediaType.Audio = none) :
    encode_audioRun inp temp opus_mode params floatBitrate (Except.ok ictx) env =
      Except.ok { result := none, spawnedCmds := [], warnings := [] } := by
  simp only [encode_audioRun, has_audioRun, h]
  rfl

/-- Witness for C7: a video-only source, single-track mode. -/
theorem encode_audio_no_audio_witness :
    noAudioCtx.bestIndex MediaType.Audio = none ∧
    encode_audioRun "in.mkv" "t" true [] (fun _ => 128) (Except.ok noAudioCtx)
        allOkEncodeEnv =
      Except.ok { result := none, spawnedCmds := [], warnings := [] } :=
  ⟨rfl, encode_audio_no_audio "in.mkv" "t" true [] (fun _ => 128) noAudioCtx
    allOkEncodeEnv rfl⟩

/-- Claim C8: whenever the top-level audio-copy/transcode process of
`encode_audio` runs but exits unsuccessfully, the function emits a
diagnostic carrying the failed invocation and the captured status and
returns "no audio produced" (`none`) instead of aborting, in both
single-track and standard mode. -/
theorem encode_audio_soft_fail (inp temp : String) (opus_mode : Bool)
    (params : List String) (floatBitrate : ℚ → Nat) (ictx : InputContext)
    (env : EncodeAudioEnv)
    (hA : (ictx.bestIndex MediaType.Audio).isSome = true)
    (hRan : env.outputRan = true)
    (hFail : env.outputStatusSuccess = false) :
    encode_audioRun inp temp opus_mode params floatBitrate (Except.ok ictx) env =
      Except.ok
        { result := none,
          spawnedCmds := [encode_audioCmd inp opus_mode params
            (if opus_mode then temp ++ "/misc.mkv" else temp ++ "/audio.mkv")],
          warnings := [{ failedCmd := encode_audioCmd inp opus_mode params
                           (if opus_mode then temp ++ "/misc.mkv"
                            else temp ++ "/audio.mkv"),
                         captured := { statusSuccess := false } }] } := by
  simp only [encode_audioRun, has_audioRun, hA, hRan, hFail]
  rfl

/-- Witness for C8: a source with audio whose top-level process exits
non-zero, single-track mode. -/
theorem encode_audio_soft_fail_witness :
    (sampleCtx.bestIndex MediaType.Audio).isSome = true ∧
    softFailEncodeEnv.outputRan = true ∧
    softFailEncodeEnv.outputStatusSuccess = false ∧
    encode_audioRun "in.mkv" "t" true [] (fun _ => 128) (Except.ok sampleCtx)
        softFailEncodeEnv =
      Except.ok
        { result := none,
          spawnedCmds := [encode_audioCmd "in.mkv" true [] ("t" ++ "/misc.mkv")],
          warnings := [{ failedCmd := encode_audioCmd "in.mkv" true []
                           ("t" ++ "/misc.mkv"),
                         captured := { statusSuccess := false } }] } := by
  refine ⟨rfl, rfl, rfl, ?_⟩
  rw [encode_audio_soft_fail "in.mkv" "t" true [] (fun _ => 128) sampleCtx
    softFailEncodeEnv rfl rfl rfl]
  rfl

/-- Claim C9 counterexample: at the concrete input where opening the
container fails, `has_audio` aborts with the panic of `unwrap`; it does not
propagate the failure to the caller as a typed failure value. -/
theorem has_audio_open_failure_panics :
    has_audioRun (Except.error FfmpegError.OpenFailed) =
      Except.error (RunFailure.panicked (unwrapErrMsg FfmpegError.OpenFailed)) ∧
    has_audioRun (Except.error FfmpegError.OpenFailed) ≠
      Except.error (RunFailure.typedFailure FfmpegError.OpenFailed) := by
  refine ⟨rfl, ?_⟩
  intro hcontra
  rw [show has_audioRun (Except.error FfmpegError.OpenFailed)
        = Except.error (RunFailure.panicked (unwrapErrMsg FfmpegError.OpenFailed))
      from rfl] at hcontra
  exact absurd (Except.error.inj hcontra) (by intro h2; cases h2)

/-- Claim C9 as amended: `has_audio` reports whether a best-ranked audio
stream exists when the container opens; a failure to open the container is
fatal — a panic, neither swallowed nor replaced by a default answer — but
it is a panic, not a typed failure value returned to the caller. -/
theorem has_audio_amended :
    (∀ ictx : InputContext,
      has_audioRun (Except.ok ictx) =
        Except.ok (ictx.bestIndex MediaType.Audio).isSome) ∧
    (∀ e : FfmpegError,
      has_audioRun (Except.error e) =
        Except.error (RunFailure.panicked (unwrapErrMsg e))) :=
  ⟨fun _ => rfl, fun _ => rfl⟩

/-- Claim C10: for every stream whose bitmask decodes to a named layout,
`get_channel_layout_float` returns 2.1 for the 2.1 and 2_1 layouts, 2.2 for
2_2, 3.1 for 3.1, 4.1 for 4.1, 5.1 for 5.1 and 5.1-back, 6.1 for 6.1,
6.1-front and 6.1-back, 7.1 for 7.1, 7.1-wide and 7.1-wide-back, and the
raw channel count for every other named layout. -/
theorem get_channel_layout_float_named (idx : Nat) (m : MediaType) (ch : Int) :
    get_channel_layout_float ⟨idx, m, ChannelLayout._2POINT1, ch⟩ = 2.1 ∧
    get_channel_layout_float ⟨idx, m, ChannelLayout._2_1, ch⟩ = 2.1 ∧
    get_channel_layout_float ⟨idx, m, ChannelLayout._2_2, ch⟩ = 2.2 ∧
    get_channel_layout_float ⟨idx, m, ChannelLayout._3POINT1, ch⟩ = 3.1 ∧
    get_channel_layout_float ⟨idx, m, ChannelLayout._4POINT1, ch⟩ = 4.1 ∧
    get_channel_layout_float ⟨idx, m, ChannelLayout._5POINT1, ch⟩ = 5.1 ∧
    get_channel_layout_float ⟨idx, m, ChannelLayout._5POINT1_BACK, ch⟩ = 5.1 ∧
    get_channel_layout_float ⟨idx, m, ChannelLayout._6POINT1, ch⟩ = 6.1 ∧
    get_channel_layout_float ⟨idx, m, ChannelLayout._6POINT1_FRONT, ch⟩ = 6.1 ∧
    get_channel_layout_float ⟨idx, m, ChannelLayout._6POINT1_BACK, ch⟩ = 6.1 ∧
    get_channel_layout_float ⟨idx, m, ChannelLayout._7POINT1, ch⟩ = 7.1 ∧
    get_channel_layout_float ⟨idx, m, ChannelLayout._7POINT1_WIDE, ch⟩ = 7.1 ∧
    get_channel_layout_float ⟨idx, m, ChannelLayout._7POINT1_WIDE_BACK, ch⟩ = 7.1 ∧
    get_channel_layout_float ⟨idx, m, ChannelLayout.MONO, ch⟩ = (ch : ℚ) ∧
    get_channel_layout_float ⟨idx, m, ChannelLayout.STEREO, ch⟩ = (ch : ℚ) ∧
    get_channel_layout_float ⟨idx, m, ChannelLayout.SURROUND, ch⟩ = (ch : ℚ) ∧
    get_channel_layout_float ⟨idx, m, ChannelLayout._4POINT0, ch⟩ = (ch : ℚ) ∧
    get_channel_layout_float ⟨idx, m, ChannelLayout.QUAD, ch⟩ = (ch : ℚ) ∧
    get_channel_layout_float ⟨idx, m, ChannelLayout._5POINT0, ch⟩ = (ch : ℚ) ∧
    get_channel_layout_float ⟨idx, m, ChannelLayout._5POINT0_BACK, ch⟩ = (ch : ℚ) ∧
    get_channel_layout_float ⟨idx, m, ChannelLayout._6POINT0, ch⟩ = (ch : ℚ) ∧
    get_channel_layout_float ⟨idx, m, ChannelLayout._6POINT0_FRONT, ch⟩ = (ch : ℚ) ∧
    get_channel_layout_float ⟨idx, m, ChannelLayout.HEXAGONAL, ch⟩ = (ch : ℚ) ∧
    get_channel_layout_float ⟨idx, m, ChannelLayout._7POINT0, ch⟩ = (ch : ℚ) ∧
    get_channel_layout_float ⟨idx, m, ChannelLayout._7POINT0_FRONT, ch⟩ = (ch : ℚ) ∧
    get_channel_layout_float ⟨idx, m, ChannelLayout.OCTAGONAL, ch⟩ = (ch : ℚ) ∧
    get_channel_layout_float ⟨idx, m, ChannelLayout.HEXADECAGONAL, ch⟩ = (ch : ℚ) ∧
    get_channel_layout_float ⟨idx, m, ChannelLayout.STEREO_DOWNMIX, ch⟩ = (ch : ℚ) := by
  refine ⟨?_, ?_, ?_, ?_, ?_, ?_, ?_, ?_, ?_, ?_, ?_, ?_, ?_, ?_,
          ?_, ?_, ?_, ?_, ?_, ?_, ?_, ?_, ?_, ?_, ?_, ?_, ?_, ?_⟩ <;>
    (rw [get_channel_layout_float_decoded _ _ _ _ (by decide)]; try rfl)

end Av1an
